import Mathlib

/-!
Shallow embedding of the `advertise` microservice (`src/advertise/src/index.js`):
an Express service that accepts image uploads, stores metadata documents in a
MongoDB collection, publishes `image-uploaded` events over RabbitMQ, and
consumes the same event type to replicate records into its own store.

External collaborators (Node `path`, the MongoDB driver, amqplib) are modelled
by executable Lean functions that reproduce their observable behaviour on the
inputs the service feeds them.
-/

namespace Advertise

/-! ### Model of Node `path.extname` and `path.basename`

The service only ever passes plain file names (multer's `originalname` and the
generated disk name), never paths with directory separators, so the model
covers slash-free names. -/

/-- Scan the reversed character list of a name for its last dot: returns the
reversed extension (the characters from the last dot to the end of the name,
reversed), or `none` when the name has no dot. -/
def extRev : List Char → Option (List Char)
  | [] => none
  | c :: rest => if c = '.' then some [c] else (extRev rest).map (fun l => c :: l)

/-- Model of Node `path.extname` on a slash-free name: the substring from the
last dot to the end, except that a name whose only dot is its first character
(a dotfile) and the special name `".."` have no extension. -/
def extname (p : String) : String :=
  match extRev p.data.reverse with
  | none => ""
  | some er =>
    if er.length = p.data.length then ""
    else if p.data = ['.', '.'] then ""
    else String.mk er.reverse

/-- Model of Node `path.basename (p, suffix)` on a slash-free name: strips the
suffix when it is a proper suffix of the name; a name equal to the suffix
becomes empty; an empty or over-long suffix is ignored. -/
def basename (p suffix : String) : String :=
  if suffix.length = 0 ∨ p.length < suffix.length then p
  else if suffix = p then ""
  else if suffix.data.isSuffixOf p.data then String.mk (p.data.take (p.data.length - suffix.data.length))
  else p

/-! ### Model of the JavaScript number-to-string coercion

`Date.now() + path.extname(...)` coerces the millisecond timestamp (a
nonnegative integer) to its decimal digit string. -/

/-- Fuel-driven decimal digit rendering of a natural number, most significant
digit first, matching the JavaScript integer-to-string coercion. -/
def decimalDigitsAux : Nat → Nat → List Char → List Char
  | 0, _, acc => acc
  | fuel + 1, n, acc =>
    if n / 10 = 0 then Nat.digitChar (n % 10) :: acc
    else decimalDigitsAux fuel (n / 10) (Nat.digitChar (n % 10) :: acc)

/-- Decimal digits of a natural number, most significant first. -/
def decimalDigits (n : Nat) : List Char := decimalDigitsAux (n + 1) n []

/-- Model of the JavaScript coercion of a nonnegative integer to a string. -/
def jsNumberToString (n : Nat) : String := String.mk (decimalDigits n)

/-- Disk name generated by the multer storage engine (line 28 of the source):
`Date.now() + path.extname(file.originalname)`. -/
def generatedFilename (now : Nat) (originalname : String) : String :=
  jsNumberToString now ++ extname originalname

/-! ### Model of `mongodb.ObjectId`

Identifiers are carried as strings. The `ObjectId` constructor accepts a
24-character hexadecimal string or a 12-character string, generates a fresh
identifier when its argument is absent, and throws otherwise. -/

/-- Decide whether a character is a hexadecimal digit. -/
def isHexChar (c : Char) : Bool :=
  ('0' ≤ c && c ≤ '9') || ('a' ≤ c && c ≤ 'f') || ('A' ≤ c && c ≤ 'F')

/-- Decide whether a string is accepted by the `ObjectId` constructor. -/
def validObjectIdString (s : String) : Bool :=
  (s.length = 24 && s.data.all isHexChar) || s.length = 12

/-- Model of `new mongodb.ObjectId(s)` on a string argument: the identifier
itself when the string is well formed, an error (a thrown `BSONError`)
otherwise. -/
def objectIdOfString (s : String) : Except Unit String :=
  if validObjectIdString s then .ok s else .error ()

/-- Model of `new mongodb.ObjectId(arg)` on an optional argument: a missing or
`undefined` argument makes the constructor generate a fresh identifier
(supplied here as `fresh`). -/
def objectIdOfQuery (arg : Option String) (fresh : String) : Except Unit String :=
  match arg with
  | none => .ok fresh
  | some s => objectIdOfString s

/-! ### The record store -/

/-- Document held in the `images` collection. The upload path stores
`{ imageUrl, uploadedAt, url }` (plus the driver-assigned `_id`); the
replication consumer stores `{ _id, imageUrl, url }` with no `uploadedAt`
key, hence the optional timestamp. -/
structure ImageRecord where
  _id : String
  imageUrl : String
  url : String
  uploadedAt : Option Nat
deriving DecidableEq

/-- Model of `collection.insertOne`: fails with a duplicate-key error when a
document with the same `_id` is already present, otherwise appends the
document. -/
def insertOne (store : List ImageRecord) (r : ImageRecord) : Except Unit (List ImageRecord) :=
  if store.any (fun x => x._id = r._id) then .error () else .ok (store ++ [r])

/-- Model of `collection.findOne ({ _id })`. -/
def findOne (store : List ImageRecord) (id : String) : Option ImageRecord :=
  store.find? (fun x => x._id = id)

/-! ### The event channel message -/

/-- Body of an `image-uploaded` event, JSON-decoded (line 73 of the source). -/
structure ImageUploadedMessage where
  imageId : String
  imageUrl : String
  url : String
deriving DecidableEq

/-! ### The `GET /image` handler (lines 44–52) -/

/-- Outcome of the `GET /image` handler. `uncaughtError` records that the
handler threw before sending any response (the rejection of an `async`
Express 4 handler is not turned into a response). -/
inductive GetImageResult where
  | ok (image : ImageRecord)
  | notFound
  | badRequest
  | uncaughtError
deriving DecidableEq

/-- HTTP status carried by a `GET /image` outcome, when one is sent. -/
def GetImageResult.status : GetImageResult → Option Nat
  | .ok _ => some 200
  | .notFound => some 404
  | .badRequest => some 400
  | .uncaughtError => none

/-- Model of the `GET /image` route handler: construct an `ObjectId` from the
`id` query parameter (generating a fresh one when the parameter is absent,
throwing when it is malformed), look the record up, and answer 200 with the
record or 404. -/
def getImageHandler (store : List ImageRecord) (idParam : Option String) (fresh : String) :
    GetImageResult :=
  match objectIdOfQuery idParam fresh with
  | .error _ => .uncaughtError
  | .ok imageId =>
    match findOne store imageId with
    | none => .notFound
    | some image => .ok image

/-! ### The `POST /upload` handler (lines 57–75) -/

/-- File object produced by multer for an accepted upload. -/
structure UploadedFile where
  originalname : String
  filename : String
deriving DecidableEq

/-- File object multer attaches to the request when a file arrives at
millisecond timestamp `now`: the disk name is generated from the timestamp and
the original name's extension. -/
def multerFile (now : Nat) (originalname : String) : UploadedFile :=
  { originalname := originalname, filename := generatedFilename now originalname }

/-- Display URL derived by the upload handler (lines 62–64):
`https://www.` ++ `path.basename (originalname, path.extname (filename))` ++ `.com`. -/
def displayUrl (f : UploadedFile) : String :=
  "https://www." ++ basename f.originalname (extname f.filename) ++ ".com"

/-- Stored location reference derived by the upload handler (line 65). -/
def storedImageUrl (f : UploadedFile) : String :=
  "advertise/uploads/" ++ f.filename

/-- Response of the `POST /upload` handler. `uncaughtError` records a rejected
store write, which the handler does not catch. -/
inductive UploadResult where
  | badRequest
  | created (image : ImageRecord)
  | uncaughtError
deriving DecidableEq

/-- HTTP status carried by a `POST /upload` outcome, when one is sent. -/
def UploadResult.status : UploadResult → Option Nat
  | .badRequest => some 400
  | .created _ => some 201
  | .uncaughtError => none

/-- Everything the `POST /upload` handler did: the response, the store it
leaves behind, and the events it handed to the channel. -/
structure UploadStep where
  result : UploadResult
  store : List ImageRecord
  published : List ImageUploadedMessage
deriving DecidableEq

/-- Model of the `POST /upload` route handler: reject with 400 when no file is
present; otherwise derive the URLs, insert the new document (the driver
assigns the fresh `_id` and writes it back into the document), answer 201 with
the document, and hand the `{ imageId, imageUrl, url }` event to the channel. -/
def uploadHandler (store : List ImageRecord) (file : Option UploadedFile) (now : Nat)
    (freshId : String) : UploadStep :=
  match file with
  | none => { result := .badRequest, store := store, published := [] }
  | some f =>
    match insertOne store
        { _id := freshId, imageUrl := storedImageUrl f, url := displayUrl f, uploadedAt := some now }
      with
    | .error _ => { result := .uncaughtError, store := store, published := [] }
    | .ok store' =>
      { result := .created
          { _id := freshId, imageUrl := storedImageUrl f, url := displayUrl f, uploadedAt := some now }
        store := store'
        published := [{ imageId := freshId, imageUrl := storedImageUrl f, url := displayUrl f }] }

/-! ### The replication consumer (lines 80–95) -/

/-- Document the consumer builds from a delivered event (lines 85–89): note
the absence of any `uploadedAt` key. -/
def consumedRecord (oid : String) (m : ImageUploadedMessage) : ImageRecord :=
  { _id := oid, imageUrl := m.imageUrl, url := m.url, uploadedAt := none }

/-- Core of `consumeImageUploadedMessage`, with the collection write passed in
as a dependency (the source's `imageCollection.insertOne`): construct the
`ObjectId`, build the document, write it, and acknowledge only on the line
after a successful write. Returns the write outcome and whether the message
was acknowledged; a rejected write propagates out of the `async` handler
before the `ack` line is reached. -/
def consumeWith (write : ImageRecord → Except Unit (List ImageRecord))
    (m : ImageUploadedMessage) : Except Unit (List ImageRecord) × Bool :=
  match objectIdOfString m.imageId with
  | .error e => (.error e, false)
  | .ok oid =>
    match write (consumedRecord oid m) with
    | .error e => (.error e, false)
    | .ok store' => (.ok store', true)

/-- Model of `consumeImageUploadedMessage` against the `images` collection. -/
def consumeImageUploadedMessage (store : List ImageRecord) (m : ImageUploadedMessage) :
    Except Unit (List ImageRecord) × Bool :=
  consumeWith (insertOne store) m

/-! ### The RabbitMQ channel (lines 73–74 and 97–101) -/

/-- State of the broker: declared exchanges (name and type), queues with their
pending messages, and queue-to-exchange bindings. -/
structure Broker where
  exchanges : List (String × String)
  queues : List (String × List ImageUploadedMessage)
  bindings : List (String × String)
deriving DecidableEq

/-- Broker with nothing declared. -/
def Broker.empty : Broker := { exchanges := [], queues := [], bindings := [] }

/-- Model of `channel.assertExchange (name, ty)`. -/
def assertExchange (b : Broker) (name ty : String) : Broker :=
  if b.exchanges.any (fun e => e.1 = name) then b
  else { b with exchanges := b.exchanges ++ [(name, ty)] }

/-- Model of `channel.assertQueue ("", {})`: the server creates a fresh,
empty queue under a generated name. -/
def assertQueue (b : Broker) (generatedName : String) : Broker × String :=
  ({ b with queues := b.queues ++ [(generatedName, [])] }, generatedName)

/-- Model of `channel.bindQueue (q, ex, "")`. -/
def bindQueue (b : Broker) (q ex : String) : Broker :=
  { b with bindings := b.bindings ++ [(q, ex)] }

/-- Model of `channel.sendToQueue (name, msg)`: a publish through the default
exchange with the queue name as routing key, so the message lands only in a
queue bearing exactly that name; an unroutable message is silently dropped. -/
def sendToQueue (b : Broker) (routingKey : String) (m : ImageUploadedMessage) : Broker :=
  { b with queues := b.queues.map (fun q => if q.1 = routingKey then (q.1, q.2 ++ [m]) else q) }

/-- Modelled from the spec: fanout publication on an exchange — every queue
bound to the exchange receives its own copy of the message (spec §4.3; the
source never calls `channel.publish`, so this is the spec's publication
semantics, stated for comparison with `sendToQueue`). -/
def publishFanout (b : Broker) (ex : String) (m : ImageUploadedMessage) : Broker :=
  { b with queues :=
      b.queues.map (fun q => if b.bindings.contains (q.1, ex) then (q.1, q.2 ++ [m]) else q) }

/-- Messages pending in a named queue. -/
def queueContents (b : Broker) (q : String) : List ImageUploadedMessage :=
  (Option.map (fun p => p.2) (b.queues.find? (fun p => p.1 = q))).getD []

/-- Channel setup performed by `startMicroservice` (lines 97–100): assert the
fanout exchange `image-uploaded`, create an anonymous queue (its generated
name passed in), and bind it to the exchange. Returns the broker and the
queue the replication consumer is subscribed to. -/
def setupChannel (generatedName : String) : Broker × String :=
  let b := assertExchange Broker.empty "image-uploaded" "fanout"
  let bq := assertQueue b generatedName
  (bindQueue bq.1 bq.2 "image-uploaded", bq.2)

/-! ### Properties of the digit rendering -/

/-- Running the digit renderer onto an accumulator appends the accumulator. -/
theorem decimalDigitsAux_acc (fuel : Nat) : ∀ (n : Nat) (acc : List Char),
    decimalDigitsAux fuel n acc = decimalDigitsAux fuel n [] ++ acc := by
  induction fuel with
  | zero => intro n acc; simp [decimalDigitsAux]
  | succ fuel ih =>
    intro n acc
    simp only [decimalDigitsAux]
    by_cases h : n / 10 = 0
    · simp [h]
    · simp only [if_neg h]
      rw [ih (n / 10) (Nat.digitChar (n % 10) :: acc), ih (n / 10) [Nat.digitChar (n % 10)]]
      simp

/-- Any sufficient fuel renders the same digits. -/
theorem decimalDigitsAux_fuel : ∀ (n f₁ f₂ : Nat), n < f₁ → n < f₂ →
    decimalDigitsAux f₁ n [] = decimalDigitsAux f₂ n [] := by
  intro n
  induction n using Nat.strong_induction_on with
  | _ n ih =>
    intro f₁ f₂ h₁ h₂
    match f₁, f₂ with
    | g₁ + 1, g₂ + 1 =>
      simp only [decimalDigitsAux]
      by_cases h : n / 10 = 0
      · simp [h]
      · simp only [if_neg h]
        rw [decimalDigitsAux_acc g₁, decimalDigitsAux_acc g₂]
        have hlt : n / 10 < n := Nat.div_lt_self (by omega) (by omega)
        rw [ih (n / 10) hlt g₁ g₂ (by omega) (by omega)]

/-- Unfolding equation for `decimalDigits`. -/
theorem decimalDigits_eq (n : Nat) :
    decimalDigits n
      = (if n / 10 = 0 then [] else decimalDigits (n / 10)) ++ [Nat.digitChar (n % 10)] := by
  by_cases h : n / 10 = 0
  · rw [if_pos h]
    show decimalDigitsAux (n + 1) n [] = [] ++ [Nat.digitChar (n % 10)]
    simp only [decimalDigitsAux, if_pos h, List.nil_append]
  · rw [if_neg h]
    show decimalDigitsAux (n + 1) n [] = decimalDigits (n / 10) ++ [Nat.digitChar (n % 10)]
    simp only [decimalDigitsAux, if_neg h]
    rw [decimalDigitsAux_acc n]
    have hlt : n / 10 < n := Nat.div_lt_self (by omega) (by omega)
    rw [decimalDigitsAux_fuel (n / 10) n (n / 10 + 1) hlt (Nat.lt_succ_self _)]
    rfl

/-- The rendered digit list is never empty. -/
theorem decimalDigits_ne_nil (n : Nat) : decimalDigits n ≠ [] := by
  rw [decimalDigits_eq]; simp

/-- Every rendered character is a decimal digit character. -/
theorem decimalDigits_mem (n : Nat) : ∀ c ∈ decimalDigits n, ∃ k, k < 10 ∧ c = Nat.digitChar k := by
  induction n using Nat.strong_induction_on with
  | _ n ih =>
    intro c hc
    rw [decimalDigits_eq] at hc
    rcases List.mem_append.mp hc with h | h
    · by_cases h0 : n / 10 = 0
      · simp [h0] at h
      · rw [if_neg h0] at h
        exact ih (n / 10) (Nat.div_lt_self (by omega) (by omega)) c h
    · have hc' : c = Nat.digitChar (n % 10) := by simpa using h
      exact ⟨n % 10, by omega, hc'⟩

/-- No rendered character is a dot. -/
theorem decimalDigits_no_dot (n : Nat) : ∀ c ∈ decimalDigits n, c ≠ '.' := by
  intro c hc
  obtain ⟨k, hk, rfl⟩ := decimalDigits_mem n c hc
  have hall : ∀ j : Fin 10, Nat.digitChar j.val ≠ '.' := by decide
  exact hall ⟨k, hk⟩

/-- Numeric value of a decimal digit character. -/
def decodeDigit (c : Char) : Nat := c.toNat - 48

/-- Numeric value of a most-significant-first digit list. -/
def digitsVal (l : List Char) : Nat := l.foldl (fun a c => a * 10 + decodeDigit c) 0

/-- Value of a digit list extended by one least significant digit. -/
theorem digitsVal_append (xs : List Char) (c : Char) :
    digitsVal (xs ++ [c]) = digitsVal xs * 10 + decodeDigit c := by
  simp [digitsVal]

/-- Rendering then revaluing a number is the identity. -/
theorem digitsVal_decimalDigits (n : Nat) : digitsVal (decimalDigits n) = n := by
  induction n using Nat.strong_induction_on with
  | _ n ih =>
    have hdec : ∀ j : Fin 10, decodeDigit (Nat.digitChar j.val) = j.val := by decide
    have hmod : decodeDigit (Nat.digitChar (n % 10)) = n % 10 := hdec ⟨n % 10, by omega⟩
    rw [decimalDigits_eq]
    by_cases h : n / 10 = 0
    · rw [if_pos h]
      have : digitsVal [Nat.digitChar (n % 10)] = decodeDigit (Nat.digitChar (n % 10)) := by
        simp [digitsVal]
      rw [List.nil_append, this, hmod]
      omega
    · rw [if_neg h, digitsVal_append,
        ih (n / 10) (Nat.div_lt_self (by omega) (by omega)), hmod]
      omega

/-- The digit rendering is injective. -/
theorem decimalDigits_inj {m n : Nat} (h : decimalDigits m = decimalDigits n) : m = n := by
  have hv := congrArg digitsVal h
  rwa [digitsVal_decimalDigits, digitsVal_decimalDigits] at hv

/-! ### Properties of the extension model -/

/-- A dotless character list has no extension split. -/
theorem extRev_no_dot : ∀ (l : List Char), (∀ c ∈ l, c ≠ '.') → extRev l = none := by
  intro l h
  induction l with
  | nil => rfl
  | cons c rest ih =>
    have hc : c ≠ '.' := h c (by simp)
    simp [extRev, hc, ih (fun x hx => h x (by simp [hx]))]

/-- Scanning a dotless stretch followed by a dot finds exactly that stretch. -/
theorem extRev_append_dot : ∀ (tail : List Char), (∀ c ∈ tail, c ≠ '.') →
    ∀ rest, extRev (tail ++ '.' :: rest) = some (tail ++ ['.']) := by
  intro tail
  induction tail with
  | nil => intro _ rest; simp [extRev]
  | cons c t ih =>
    intro h rest
    have hc : c ≠ '.' := h c (by simp)
    simp [extRev, hc, ih (fun x hx => h x (by simp [hx])) rest]

/-- A successful extension scan decomposes its input: a dotless stretch, the
dot, and the remainder. -/
theorem extRev_shape : ∀ (l er : List Char), extRev l = some er →
    ∃ tail rest, l = tail ++ '.' :: rest ∧ er = tail ++ ['.'] ∧ ∀ c ∈ tail, c ≠ '.' := by
  intro l
  induction l with
  | nil => intro er h; simp [extRev] at h
  | cons c rest ih =>
    intro er h
    by_cases hc : c = '.'
    · subst hc
      simp [extRev] at h
      exact ⟨[], rest, rfl, by simp [← h], by simp⟩
    · simp [extRev, hc] at h
      obtain ⟨er', h1, h2⟩ := h
      obtain ⟨tail, rest', hl, he, hnd⟩ := ih er' h1
      refine ⟨c :: tail, rest', by simp [hl], by simp [← h2, he], ?_⟩
      intro x hx
      rcases List.mem_cons.mp hx with hx | hx
      · simpa [hx] using hc
      · exact hnd x hx

/-- A rendered number has no extension. -/
theorem extname_jsNumberToString (t : Nat) : extname (jsNumberToString t) = "" := by
  unfold extname
  have hnone : extRev (jsNumberToString t).data.reverse = none := by
    apply extRev_no_dot
    intro c hc
    exact decimalDigits_no_dot t c (List.mem_reverse.mp hc)
  rw [hnone]

/-- Reduction of `extname` when the scan finds no dot. -/
theorem extname_of_none {p : String} (h : extRev p.data.reverse = none) : extname p = "" := by
  unfold extname
  rw [h]

/-- Reduction of `extname` when the last dot is the first character. -/
theorem extname_of_dotfirst {p : String} {er : List Char} (h : extRev p.data.reverse = some er)
    (h₁ : er.length = p.data.length) : extname p = "" := by
  unfold extname
  rw [h]
  show (if er.length = p.data.length then ""
    else if p.data = ['.', '.'] then "" else String.mk er.reverse) = ""
  rw [if_pos h₁]

/-- Reduction of `extname` on the special name made of two dots. -/
theorem extname_of_dotdot {p : String} {er : List Char} (h : extRev p.data.reverse = some er)
    (h₁ : er.length ≠ p.data.length) (h₂ : p.data = ['.', '.']) : extname p = "" := by
  unfold extname
  rw [h]
  show (if er.length = p.data.length then ""
    else if p.data = ['.', '.'] then "" else String.mk er.reverse) = ""
  rw [if_neg h₁, if_pos h₂]

/-- Reduction of `extname` in the ordinary case: the extension runs from the
last dot to the end of the name. -/
theorem extname_of_extRev {p : String} {er : List Char} (h : extRev p.data.reverse = some er)
    (h₁ : er.length ≠ p.data.length) (h₂ : p.data ≠ ['.', '.']) :
    extname p = String.mk er.reverse := by
  unfold extname
  rw [h]
  show (if er.length = p.data.length then ""
    else if p.data = ['.', '.'] then "" else String.mk er.reverse) = String.mk er.reverse
  rw [if_neg h₁, if_neg h₂]

/-- Appending the original name's extension to a rendered timestamp yields a
name with exactly that extension: the generated disk name of line 28 carries
the original name's extension. -/
theorem extname_generatedFilename (t : Nat) (orig : String) :
    extname (generatedFilename t orig) = extname orig := by
  unfold generatedFilename
  rcases h : extRev orig.data.reverse with _ | er
  · rw [extname_of_none h, String.append_empty, extname_jsNumberToString]
  · obtain ⟨tail, rest, hl, he, hnd⟩ := extRev_shape _ _ h
    by_cases hlen : er.length = orig.data.length
    · rw [extname_of_dotfirst h hlen, String.append_empty, extname_jsNumberToString]
    · by_cases hdd : orig.data = ['.', '.']
      · rw [extname_of_dotdot h hlen hdd, String.append_empty, extname_jsNumberToString]
      · rw [extname_of_extRev h hlen hdd]
        have her : er.reverse = '.' :: tail.reverse := by rw [he]; simp
        have hdata : (jsNumberToString t ++ String.mk er.reverse).data
            = decimalDigits t ++ '.' :: tail.reverse := by
          rw [String.data_append]
          show decimalDigits t ++ er.reverse = _
          rw [her]
        have hrev2 : extRev (jsNumberToString t ++ String.mk er.reverse).data.reverse = some er := by
          rw [hdata]
          have hstep : (decimalDigits t ++ '.' :: tail.reverse).reverse
              = tail ++ '.' :: (decimalDigits t).reverse := by simp
          rw [hstep, extRev_append_dot tail hnd, he]
        have hlen' : er.length ≠ (jsNumberToString t ++ String.mk er.reverse).data.length := by
          rw [hdata, he]
          have hpos : 0 < (decimalDigits t).length := List.length_pos.mpr (decimalDigits_ne_nil t)
          simp only [List.length_append, List.length_cons, List.length_reverse, List.length_nil]
          omega
        have hdd' : (jsNumberToString t ++ String.mk er.reverse).data ≠ ['.', '.'] := by
          rw [hdata]
          intro hcon
          cases hds : decimalDigits t with
          | nil => exact decimalDigits_ne_nil t hds
          | cons d ds' =>
            rw [hds] at hcon
            have hd0 : d = '.' := by
              have hh := congrArg List.head? hcon
              simpa using hh
            exact decimalDigits_no_dot t d (by rw [hds]; simp) hd0
        exact extname_of_extRev hrev2 hlen' hdd'

/-- Distinct timestamps render to distinct strings. -/
theorem jsNumberToString_inj {m n : Nat} (h : jsNumberToString m = jsNumberToString n) :
    m = n :=
  decimalDigits_inj (congrArg String.data h)

/-- Generated disk names agree only when the millisecond timestamps agree. -/
theorem generatedFilename_inj_time {t₁ t₂ : Nat} (orig : String)
    (h : generatedFilename t₁ orig = generatedFilename t₂ orig) : t₁ = t₂ := by
  unfold generatedFilename at h
  have hd := congrArg String.data h
  rw [String.data_append, String.data_append] at hd
  exact decimalDigits_inj (List.append_cancel_right hd)

/-! ### Evaluation lemmas for the handlers -/

/-- Reduction of `insertOne` when no document with the same `_id` is present. -/
theorem insertOne_ok {store : List ImageRecord} {r : ImageRecord}
    (h : store.any (fun x => x._id = r._id) = false) :
    insertOne store r = .ok (store ++ [r]) := by
  unfold insertOne
  simp [h]

/-- Reduction of the upload handler on a present file and a fresh identifier. -/
theorem uploadHandler_insert_ok (store : List ImageRecord) (f : UploadedFile) (now : Nat)
    (freshId : String) (h : store.any (fun r => r._id = freshId) = false) :
    uploadHandler store (some f) now freshId
      = { result := .created
            { _id := freshId, imageUrl := storedImageUrl f, url := displayUrl f, uploadedAt := some now }
          store :=
            store ++ [{ _id := freshId, imageUrl := storedImageUrl f, url := displayUrl f, uploadedAt := some now }]
          published := [{ imageId := freshId, imageUrl := storedImageUrl f, url := displayUrl f }] } := by
  simp only [uploadHandler]
  rw [insertOne_ok (by simpa using h)]

/-- Display URL the handler derives for a multer-stored file: the original
name with its own extension stripped, embedded in the fixed template. -/
theorem displayUrl_multerFile (t : Nat) (orig : String) :
    displayUrl (multerFile t orig) = "https://www." ++ basename orig (extname orig) ++ ".com" := by
  unfold displayUrl multerFile
  rw [extname_generatedFilename]

/-! ### The claims -/

/-- C1: the claim fails on the code. The ingestion path publishes with
`channel.sendToQueue ("image-uploaded", ...)` (line 74): a default-exchange
publish whose routing key names no existing queue, since `image-uploaded` is
declared as an exchange, not a queue. The anonymous queue bound to the
`image-uploaded` fanout exchange therefore receives nothing, while a fanout
publication on the exchange (the spec's semantics, `publishFanout`) would
deliver the event to it. -/
theorem c1_sendToQueue_event_never_reaches_bound_queue :
    queueContents
        (sendToQueue (setupChannel "amq.gen-1").1 "image-uploaded"
          { imageId := "aaaaaaaaaaaaaaaaaaaaaaaa", imageUrl := "advertise/uploads/1.png", url := "https://www.cat.com" })
        (setupChannel "amq.gen-1").2
      = []
    ∧ queueContents
        (publishFanout (setupChannel "amq.gen-1").1 "image-uploaded"
          { imageId := "aaaaaaaaaaaaaaaaaaaaaaaa", imageUrl := "advertise/uploads/1.png", url := "https://www.cat.com" })
        (setupChannel "amq.gen-1").2
      = [{ imageId := "aaaaaaaaaaaaaaaaaaaaaaaa", imageUrl := "advertise/uploads/1.png", url := "https://www.cat.com" }] :=
  ⟨rfl, rfl⟩

/-- C2: the claim fails on the code. The consumer's write is a blind
`insertOne` keyed by `_id` (line 91), not an upsert: the first delivery of an
event succeeds and is acknowledged, but the second delivery of the very same
event raises a duplicate-key error and the message is never acknowledged, so
the second delivery is an error rather than a no-op. -/
theorem c2_second_delivery_errors_instead_of_upsert :
    consumeImageUploadedMessage []
        { imageId := "aaaaaaaaaaaaaaaaaaaaaaaa", imageUrl := "u", url := "v" }
      = (.ok [{ _id := "aaaaaaaaaaaaaaaaaaaaaaaa", imageUrl := "u", url := "v", uploadedAt := none }], true)
    ∧ consumeImageUploadedMessage
        [{ _id := "aaaaaaaaaaaaaaaaaaaaaaaa", imageUrl := "u", url := "v", uploadedAt := none }]
        { imageId := "aaaaaaaaaaaaaaaaaaaaaaaa", imageUrl := "u", url := "v" }
      = (.error (), false) :=
  ⟨rfl, rfl⟩

/-- C3: for every store-write dependency and every delivered event, the
consumer acknowledges the message exactly when the store write succeeded; a
rejected write propagates out of the handler before the `ack` line is
reached, so the message stays unacknowledged and the channel will redeliver
it. -/
theorem c3_ack_iff_store_write_succeeded
    (write : ImageRecord → Except Unit (List ImageRecord)) (m : ImageUploadedMessage) :
    (consumeWith write m).2 = true ↔ ∃ s, (consumeWith write m).1 = Except.ok s := by
  unfold consumeWith
  cases h1 : objectIdOfString m.imageId with
  | error e => simp [h1]
  | ok oid =>
    simp only [h1]
    cases h2 : write (consumedRecord oid m) with
    | error e => simp [h2]
    | ok s => simp [h2]

/-- C4: the claim fails on the code. The handler builds
`new mongodb.ObjectId (req.query.id)` with no validation and no catch
(line 45): a malformed `id` makes the constructor throw, the `async`
handler's rejection is uncaught, and no response — in particular no 400 —
is ever sent. -/
theorem c4_malformed_id_uncaught_not_400 :
    getImageHandler [] (some "not-a-valid-objectid") "cccccccccccccccccccccccc" = .uncaughtError
    ∧ GetImageResult.status (getImageHandler [] (some "not-a-valid-objectid") "cccccccccccccccccccccccc")
      ≠ some 400 := by
  exact ⟨rfl, by decide⟩

/-- C5: a valid upload is answered 201 with the inserted record, and the
`imageId` of the event handed to the channel equals that record's `_id` (both
are the driver-generated fresh identifier). -/
theorem c5_created_record_id_equals_published_imageId (store : List ImageRecord)
    (f : UploadedFile) (now : Nat) (freshId : String)
    (h : store.any (fun r => r._id = freshId) = false) :
    UploadResult.status (uploadHandler store (some f) now freshId).result = some 201
    ∧ (uploadHandler store (some f) now freshId).result
      = .created { _id := freshId, imageUrl := storedImageUrl f, url := displayUrl f, uploadedAt := some now }
    ∧ (uploadHandler store (some f) now freshId).published
      = [{ imageId := freshId, imageUrl := storedImageUrl f, url := displayUrl f }]
    ∧ ({ imageId := freshId, imageUrl := storedImageUrl f, url := displayUrl f } : ImageUploadedMessage).imageId
      = ({ _id := freshId, imageUrl := storedImageUrl f, url := displayUrl f, uploadedAt := some now } : ImageRecord)._id := by
  rw [uploadHandler_insert_ok store f now freshId h]
  exact ⟨rfl, rfl, rfl, rfl⟩

/-- C5 witness: a concrete upload of `cat.png` at timestamp 7 into an empty
store. -/
theorem c5_created_record_id_equals_published_imageId_witness :
    (([] : List ImageRecord).any (fun r => r._id = "aaaaaaaaaaaaaaaaaaaaaaaa") = false)
    ∧ (UploadResult.status
        (uploadHandler [] (some (multerFile 7 "cat.png")) 7 "aaaaaaaaaaaaaaaaaaaaaaaa").result = some 201
      ∧ (uploadHandler [] (some (multerFile 7 "cat.png")) 7 "aaaaaaaaaaaaaaaaaaaaaaaa").result
        = .created { _id := "aaaaaaaaaaaaaaaaaaaaaaaa", imageUrl := storedImageUrl (multerFile 7 "cat.png"), url := displayUrl (multerFile 7 "cat.png"), uploadedAt := some 7 }
      ∧ (uploadHandler [] (some (multerFile 7 "cat.png")) 7 "aaaaaaaaaaaaaaaaaaaaaaaa").published
        = [{ imageId := "aaaaaaaaaaaaaaaaaaaaaaaa", imageUrl := storedImageUrl (multerFile 7 "cat.png"), url := displayUrl (multerFile 7 "cat.png") }]
      ∧ ({ imageId := "aaaaaaaaaaaaaaaaaaaaaaaa", imageUrl := storedImageUrl (multerFile 7 "cat.png"), url := displayUrl (multerFile 7 "cat.png") } : ImageUploadedMessage).imageId
        = ({ _id := "aaaaaaaaaaaaaaaaaaaaaaaa", imageUrl := storedImageUrl (multerFile 7 "cat.png"), url := displayUrl (multerFile 7 "cat.png"), uploadedAt := some 7 } : ImageRecord)._id) :=
  ⟨rfl, c5_created_record_id_equals_published_imageId [] (multerFile 7 "cat.png") 7
    "aaaaaaaaaaaaaaaaaaaaaaaa" rfl⟩

/-- C6: an upload without a file is answered 400 (line 59) before any store
or channel interaction: the store it leaves behind is the one it received
and nothing is handed to the channel. -/
theorem c6_no_file_400_no_write_no_publish (store : List ImageRecord) (now : Nat)
    (freshId : String) :
    uploadHandler store none now freshId
      = { result := .badRequest, store := store, published := [] }
    ∧ UploadResult.status (uploadHandler store none now freshId).result = some 400 :=
  ⟨rfl, rfl⟩

/-- C7 counterexample: consuming an event writes a document carrying no
`uploadedAt` key at all (lines 85–89 build only `_id`, `imageUrl`, `url`), so
no server-assigned receipt timestamp is stored, refuting the claim at this
concrete event. -/
theorem c7_counterexample_no_receipt_timestamp :
    (consumeImageUploadedMessage []
        { imageId := "aaaaaaaaaaaaaaaaaaaaaaaa", imageUrl := "u", url := "v" }).1
      = .ok [{ _id := "aaaaaaaaaaaaaaaaaaaaaaaa", imageUrl := "u", url := "v", uploadedAt := none }]
    ∧ ({ _id := "aaaaaaaaaaaaaaaaaaaaaaaa", imageUrl := "u", url := "v", uploadedAt := none } : ImageRecord).uploadedAt
      = none :=
  ⟨rfl, rfl⟩

/-- C7 amended: for every delivered event with a well-formed `id` not yet in
the store, the consumer writes exactly the event's `id`, `imageUrl` and
`url` — and no timestamp field. -/
theorem c7_consumed_record_has_event_fields_no_timestamp (store : List ImageRecord)
    (m : ImageUploadedMessage) (h1 : validObjectIdString m.imageId = true)
    (h2 : store.any (fun r => r._id = m.imageId) = false) :
    (consumeImageUploadedMessage store m).1
      = .ok (store ++ [{ _id := m.imageId, imageUrl := m.imageUrl, url := m.url, uploadedAt := none }])
    ∧ ({ _id := m.imageId, imageUrl := m.imageUrl, url := m.url, uploadedAt := none } : ImageRecord).uploadedAt
      = none := by
  have hins : insertOne store { _id := m.imageId, imageUrl := m.imageUrl, url := m.url, uploadedAt := none }
      = Except.ok (store ++ [{ _id := m.imageId, imageUrl := m.imageUrl, url := m.url, uploadedAt := none }]) :=
    insertOne_ok (by simpa using h2)
  unfold consumeImageUploadedMessage consumeWith objectIdOfString consumedRecord
  rw [if_pos h1]
  simp [hins]

/-- C7 witness: a concrete event into an empty store. -/
theorem c7_consumed_record_has_event_fields_no_timestamp_witness :
    validObjectIdString "aaaaaaaaaaaaaaaaaaaaaaaa" = true
    ∧ (([] : List ImageRecord).any (fun r => r._id = "aaaaaaaaaaaaaaaaaaaaaaaa") = false)
    ∧ ((consumeImageUploadedMessage []
          { imageId := "aaaaaaaaaaaaaaaaaaaaaaaa", imageUrl := "u", url := "v" }).1
        = .ok ([] ++ [{ _id := "aaaaaaaaaaaaaaaaaaaaaaaa", imageUrl := "u", url := "v", uploadedAt := none }])
      ∧ ({ _id := "aaaaaaaaaaaaaaaaaaaaaaaa", imageUrl := "u", url := "v", uploadedAt := none } : ImageRecord).uploadedAt
        = none) :=
  ⟨rfl, rfl, c7_consumed_record_has_event_fields_no_timestamp []
    { imageId := "aaaaaaaaaaaaaaaaaaaaaaaa", imageUrl := "u", url := "v" } rfl rfl⟩

/-- C8 counterexample: the generated disk name depends only on the
millisecond timestamp and the extension, so two concurrent uploads of
`cat.png` that land in the same `Date.now()` millisecond receive the same
name — the universally claimed distinctness fails at equal timestamps. -/
theorem c8_counterexample_same_millisecond_collision :
    ¬ (∀ t1 t2 : Nat, generatedFilename t1 "cat.png" ≠ generatedFilename t2 "cat.png") :=
  fun h => h 1696000000000 1696000000000 rfl

/-- C8 amended: uploads whose millisecond timestamps differ do receive
distinct disk names; only same-millisecond uploads with the same extension
collide. -/
theorem c8_distinct_timestamps_give_distinct_names (t1 t2 : Nat) (orig : String)
    (h : t1 ≠ t2) : generatedFilename t1 orig ≠ generatedFilename t2 orig :=
  fun hc => h (generatedFilename_inj_time orig hc)

/-- C8 witness: timestamps 0 and 1 give distinct names for `cat.png`. -/
theorem c8_distinct_timestamps_give_distinct_names_witness :
    (0 : Nat) ≠ 1 ∧ generatedFilename 0 "cat.png" ≠ generatedFilename 1 "cat.png" :=
  ⟨by decide, c8_distinct_timestamps_give_distinct_names 0 1 "cat.png" (by decide)⟩

/-- C9: the display `url` embeds the original name stripped of its own
extension in the fixed template (the generated disk name carries the same
extension, so stripping `extname (filename)` from the original name equals
stripping `extname (originalname)`); in particular an upload of `cat.png`
yields `url = https://www.cat.com` and an `imageUrl` of the form
`advertise/uploads/<timestamp>.png`. -/
theorem c9_display_url_strips_extension (store : List ImageRecord) (t : Nat) (orig : String)
    (freshId : String) (h : store.any (fun r => r._id = freshId) = false) :
    (uploadHandler store (some (multerFile t orig)) t freshId).result
      = .created { _id := freshId, imageUrl := "advertise/uploads/" ++ generatedFilename t orig, url := "https://www." ++ basename orig (extname orig) ++ ".com", uploadedAt := some t }
    ∧ (orig = "cat.png" →
        (uploadHandler store (some (multerFile t orig)) t freshId).result
          = .created { _id := freshId, imageUrl := "advertise/uploads/" ++ jsNumberToString t ++ ".png", url := "https://www.cat.com", uploadedAt := some t }) := by
  have hup := uploadHandler_insert_ok store (multerFile t orig) t freshId h
  constructor
  · rw [hup, displayUrl_multerFile]
    rfl
  · intro ho
    subst ho
    rw [hup]
    have hext : extname "cat.png" = ".png" := by decide
    have h2 : displayUrl (multerFile t "cat.png") = "https://www.cat.com" := by
      rw [displayUrl_multerFile, hext]
      decide
    have h3 : storedImageUrl (multerFile t "cat.png")
        = "advertise/uploads/" ++ jsNumberToString t ++ ".png" := by
      unfold storedImageUrl multerFile generatedFilename
      rw [hext, String.append_assoc]
    rw [h2, h3]

/-- C9 witness: a concrete upload of `cat.png` at timestamp 7. -/
theorem c9_display_url_strips_extension_witness :
    (([] : List ImageRecord).any (fun r => r._id = "aaaaaaaaaaaaaaaaaaaaaaaa") = false)
    ∧ ((uploadHandler [] (some (multerFile 7 "cat.png")) 7 "aaaaaaaaaaaaaaaaaaaaaaaa").result
        = .created { _id := "aaaaaaaaaaaaaaaaaaaaaaaa", imageUrl := "advertise/uploads/" ++ generatedFilename 7 "cat.png", url := "https://www." ++ basename "cat.png" (extname "cat.png") ++ ".com", uploadedAt := some 7 }
      ∧ ("cat.png" = "cat.png" →
          (uploadHandler [] (some (multerFile 7 "cat.png")) 7 "aaaaaaaaaaaaaaaaaaaaaaaa").result
            = .created { _id := "aaaaaaaaaaaaaaaaaaaaaaaa", imageUrl := "advertise/uploads/" ++ jsNumberToString 7 ++ ".png", url := "https://www.cat.com", uploadedAt := some 7 })) :=
  ⟨rfl, c9_display_url_strips_extension [] 7 "cat.png" "aaaaaaaaaaaaaaaaaaaaaaaa" rfl⟩

/-- C10: a `GET /image` with no `id` parameter is not answered 400: the
`ObjectId` constructor generates a fresh identifier in place of the missing
argument, and when that identifier is absent from the store the lookup misses
and the response is 404. -/
theorem c10_missing_id_param_yields_404 (store : List ImageRecord) (fresh : String)
    (h : findOne store fresh = none) :
    getImageHandler store none fresh = .notFound
    ∧ GetImageResult.status (getImageHandler store none fresh) = some 404
    ∧ getImageHandler store none fresh ≠ .badRequest := by
  have hmain : getImageHandler store none fresh = .notFound := by
    unfold getImageHandler objectIdOfQuery
    show (match findOne store fresh with
      | none => GetImageResult.notFound
      | some image => GetImageResult.ok image) = GetImageResult.notFound
    rw [h]
  exact ⟨hmain, by rw [hmain]; rfl, by rw [hmain]; decide⟩

/-- C10 witness: an empty store and a concrete fresh identifier. -/
theorem c10_missing_id_param_yields_404_witness :
    findOne [] "cccccccccccccccccccccccc" = none
    ∧ (getImageHandler [] none "cccccccccccccccccccccccc" = .notFound
      ∧ GetImageResult.status (getImageHandler [] none "cccccccccccccccccccccccc") = some 404
      ∧ getImageHandler [] none "cccccccccccccccccccccccc" ≠ .badRequest) :=
  ⟨rfl, c10_missing_id_param_yields_404 [] "cccccccccccccccccccccccc" rfl⟩

end Advertise
